import Mathlib

/-!
Shallow embedding of the 510(k) feature-engineering pipeline
(`feature_engineering/feature_engineering_pipeline/src/`):

* `prepare_analytical_data.py` — loads the raw pipe-delimited 510(k) table,
  derives `DECISION_TIME_DAYS` and `COMPLEXITY`, applies the four retention
  filters, one-hot encodes `PRODUCTCODE` and `CLASSADVISECOMM`, and writes
  `analytical_data.csv` and `features_dummy.csv`.
* `prepare_token_dummy_features.py` — normalizes `DEVICENAME`, builds binary
  token-indicator columns, drops zero-sum columns, and inner-merges the result
  into `features_dummy.csv` on `KNUMBER`.
* `prepare_train_val_test.py` — assigns each record a train/validation/test
  partition by decision year and writes three key files.

Dates are modelled as calendar triples compared through a day-number function;
pandas `NaT`/`NaN` values are modelled with `Option`.
-/

/-- A calendar date as carried by the parsed `DATERECEIVED` / `DECISIONDATE`
columns. -/
structure Date where
  year : Nat
  month : Nat
  day : Nat
  deriving DecidableEq, Repr

/-- Day count of a civil date (days since 1970-01-01, standard
days-from-civil algorithm).  Pandas timestamp subtraction and comparison are
modelled through this function. -/
def Date.dayNumber (dt : Date) : Int :=
  let y : Int := if dt.month ≤ 2 then (dt.year : Int) - 1 else (dt.year : Int)
  let era : Int := (if 0 ≤ y then y else y - 399) / 400
  let yoe : Int := y - era * 400
  let m : Int := (dt.month : Int)
  let doy : Int := (153 * (if 2 < m then m - 3 else m + 9) + 2) / 5 + (dt.day : Int) - 1
  let doe : Int := yoe * 365 + yoe / 4 - yoe / 100 + doy
  era * 146097 + doe - 719468

/-- One row of the raw pipe-delimited 510(k) file.  The two date columns are
`Option` because `pd.to_datetime` yields `NaT` for missing or unparseable
entries; `DEVICENAME` is `Option` because the free-text field may be `NaN`. -/
structure RawRecord where
  KNUMBER : String
  DATERECEIVED : Option Date
  DECISIONDATE : Option Date
  PRODUCTCODE : String
  CLASSADVISECOMM : String
  TYPE : String
  THIRDPARTY : String
  DECISION : String
  DEVICENAME : Option String
  deriving DecidableEq, Repr

/-- The cutoff `pd.to_datetime('10-01-2007')`: October 1, 2007 (pandas parses the string
month-first), the MDUFA II fiscal-year-2007 retention cutoff. -/
def fy2007Start : Date := ⟨2007, 10, 1⟩

/-- The latency `DECISION_TIME_DAYS = (DECISIONDATE - DATERECEIVED).dt.days`; `NaT` in
either operand propagates to `NaN`. -/
def decisionTimeDays (r : RawRecord) : Option Int :=
  match r.DECISIONDATE, r.DATERECEIVED with
  | some d, some rcv => some (d.dayNumber - rcv.dayNumber)
  | _, _ => none

/-- The `COMPLEXITY` column: initialized to `"H"`, then overridden to `"L"`
where `DECISION_TIME_DAYS <= 90` and to `"M"` where
`90 < DECISION_TIME_DAYS <= 265`.  Pandas comparisons against `NaN` are
false, so an undefined latency keeps the initial `"H"`. -/
def complexityOf (latency : Option Int) : String :=
  let c0 := "H"
  let c1 :=
    match latency with
    | some d => if d ≤ 90 then "L" else c0
    | none => c0
  match latency with
  | some d => if 90 < d ∧ d ≤ 265 then "M" else c1
  | none => c1

/-- A row of `analytical_data.csv`: the raw columns plus the derived latency
and complexity columns.  (`DECISION_TIME_DAYS_LOG10` is derived from
`DECISION_TIME_DAYS` alone and is not needed by any property below.) -/
structure AnalyticalRecord extends RawRecord where
  DECISION_TIME_DAYS : Option Int
  COMPLEXITY : String
  deriving DecidableEq, Repr

/-- Column derivation performed before the retention filters. -/
def deriveColumns (r : RawRecord) : AnalyticalRecord :=
  { r with
    DECISION_TIME_DAYS := decisionTimeDays r
    COMPLEXITY := complexityOf (decisionTimeDays r) }

/-- The four retention filters, in source order: decision date on or after
the FY2007 cutoff (false for `NaT`), then `THIRDPARTY == 'N'`, then
`TYPE == 'Traditional'`, then `DECISION == 'SESE'`. -/
def analyticalTable (rows : List RawRecord) : List AnalyticalRecord :=
  ((((rows.map deriveColumns).filter fun a =>
        match a.DECISIONDATE with
        | some d => fy2007Start.dayNumber ≤ d.dayNumber
        | none => false).filter fun a => a.THIRDPARTY == "N").filter fun a =>
      a.TYPE == "Traditional").filter fun a => a.DECISION == "SESE"

/-- The columns selected from the `pd.get_dummies` result:
`['KNUMBER'] + ['PRODUCTCODE_' + i for i in [...]] + ['CLASSADVISECOMM_' + i for i in [...]]`. -/
def selectedFeatureColumns : List String :=
  ["KNUMBER"] ++ (["IYE", "IYN", "JJX", "LYZ", "NBW"].map fun i => "PRODUCTCODE_" ++ i)
    ++ (["AN", "HE", "IM", "MI", "RA", "TX"].map fun i => "CLASSADVISECOMM_" ++ i)

/-- The dummy columns `pd.get_dummies` actually creates: one per category
value occurring in the filtered data, prefixed by the source column name. -/
def dummyColumnsPresent (rows : List AnalyticalRecord) : List String :=
  (rows.map fun a => "PRODUCTCODE_" ++ a.PRODUCTCODE).dedup
    ++ (rows.map fun a => "CLASSADVISECOMM_" ++ a.CLASSADVISECOMM).dedup

/-- Value of one-hot column `c` for record `a` in the `get_dummies` result. -/
def oneHotValue (a : AnalyticalRecord) (c : String) : Nat :=
  if c = "PRODUCTCODE_" ++ a.PRODUCTCODE ∨ c = "CLASSADVISECOMM_" ++ a.CLASSADVISECOMM then 1
  else 0

/-- The file `features_dummy.csv` as written: a header plus one row per record,
each row the `KNUMBER` key and the values of the selected one-hot columns. -/
structure FeaturesFile where
  header : List String
  rows : List (String × List Nat)
  deriving DecidableEq, Repr

/-- Rows of the selected features table (`data_510k_features` without its
header). -/
def featuresTable (rows : List AnalyticalRecord) : List (String × List Nat) :=
  rows.map fun a => (a.KNUMBER, (selectedFeatureColumns.drop 1).map (oneHotValue a))

/-- Observable outcome of running `prepare_analytical_data`.
`missingDataError` is the outcome the specification demands for absent or
misnamed raw data; the remaining constructors are the outcomes the Python
code can actually produce: a `KeyError` from a config lookup, an
`IndexError` from `os.listdir("../data/")[0]` on an empty directory, a
`distutils.log.error` call that only logs and returns, or a successful run
with its two written outputs. -/
inductive PrepOutcome where
  | missingDataError (expectedFile : String)
  | keyError (key : String)
  | indexError
  | loggedOnly (message : String)
  | success (analytical : List AnalyticalRecord) (features : FeaturesFile)
  deriving DecidableEq, Repr

/-- The `config[key]` lookup, `none` when the key is absent (Python `KeyError`). -/
def lookupConfig (config : List (String × String)) (key : String) : Option String :=
  (config.find? fun kv => kv.1 == key).map Prod.snd

/-- The function `prepare_analytical_data()`, modelled on its three inputs: the loaded
config, the listing of `../data/`, and the parsed rows of the raw file.

The two error branches call `error(config['raw_501k_filename'] + ...)` with a
misspelled config key: the lookup raises `KeyError` before anything is
logged.  Were that key present, `distutils.log.error` would merely log: on an
empty directory the following `os.listdir("../data/")[0]` then raises
`IndexError`, and on a misnamed first file the function logs and returns
without writing.  On the success path, selecting the eleven allow-listed
dummy columns raises `KeyError` if any of them was not produced by
`pd.get_dummies` (its category value never occurs in the filtered data). -/
def prepare_analytical_data (config : List (String × String))
    (dataDirListing : List String) (rows : List RawRecord) : PrepOutcome :=
  if dataDirListing.length < 1 then
    match lookupConfig config "raw_501k_filename" with
    | none => .keyError "raw_501k_filename"
    | some _ => .indexError
  else
    match lookupConfig config "raw_510k_filename" with
    | none => .keyError "raw_510k_filename"
    | some expected =>
      if dataDirListing.headD "" = expected then
        match (selectedFeatureColumns.drop 1).find? fun c =>
            !((dummyColumnsPresent (analyticalTable rows)).contains c) with
        | some missingCol => .keyError missingCol
        | none =>
          .success (analyticalTable rows)
            ⟨selectedFeatureColumns, featuresTable (analyticalTable rows)⟩
      else
        match lookupConfig config "raw_501k_filename" with
        | none => .keyError "raw_501k_filename"
        | some v => .loggedOnly (v ++ " does not exist.")

/-- Code points of a string; the pandas string methods of
`prepare_token_dummy_features_DEVICENAME` are modelled at the
code-point level. -/
def strCodes (s : String) : List Nat := s.data.map Char.toNat

/-- Model of `str.lower()` on one code point (ASCII letters). -/
def lowerCode (c : Nat) : Nat := if 65 ≤ c ∧ c ≤ 90 then c + 32 else c

/-- Model of `str.replace(" ", "_")` on one code point. -/
def spaceToUnderscore (c : Nat) : Nat := if c = 32 then 95 else c

/-- Regex word character, the complement of `\W`: `[A-Za-z0-9_]`. -/
def isWordCode (c : Nat) : Bool :=
  decide ((48 ≤ c ∧ c ≤ 57) ∨ (65 ≤ c ∧ c ≤ 90) ∨ (97 ≤ c ∧ c ≤ 122) ∨ c = 95)

/-- The `DEVICENAME` normalization of line 26-27:
`.str.lower().str.replace(" ", "_").str.replace("\W", "")`. -/
def normalizeCodes (s : List Nat) : List Nat :=
  ((s.map lowerCode).map spaceToUnderscore).filter isWordCode

/-- Substring search: does `hay` contain `tok` as a contiguous substring?
This models `str.contains(token)`; the pandas call treats its pattern as a
regular expression, which coincides with plain substring search for the
normalized word-character tokens of the dictionary. -/
def containsSub (hay tok : List Nat) : Bool :=
  tok.isPrefixOf hay ||
    match hay with
    | [] => false
    | _ :: t => containsSub t tok

/-- Line 31: `str.contains(token) * 1` applied to one (already normalized)
`DEVICENAME` cell; a missing cell (`NaN`) propagates to `NaN`. -/
def indicatorValue (devicename : Option (List Nat)) (token : String) : Option Nat :=
  devicename.map fun d => if containsSub d (strCodes token) then 1 else 0

/-- One row of the `KNUMBER`/`DEVICENAME` projection of the analytical table
loaded by `prepare_token_dummy_features_DEVICENAME`. -/
structure TokenStageRow where
  KNUMBER : String
  DEVICENAME : Option String
  deriving DecidableEq, Repr

/-- Indicator of `token` for row `r`, with the column-wise normalization of
line 26-27 applied first. -/
def tokenIndicatorOfRow (r : TokenStageRow) (token : String) : Option Nat :=
  indicatorValue (r.DEVICENAME.map fun d => normalizeCodes (strCodes d)) token

/-- A `NaN`-propagating addition, for `sum` over a column holding `NaN`. -/
def optAdd : Option Nat → Option Nat → Option Nat
  | some a, some b => some (a + b)
  | _, _ => none

/-- Model of `apply(sum, axis=0)` on one indicator column: Python's builtin `sum`
iterates the cells, and any `NaN` cell poisons the total. -/
def columnSum (rows : List TokenStageRow) (token : String) : Option Nat :=
  rows.foldr (fun r acc => optAdd (tokenIndicatorOfRow r token) acc) (some 0)

/-- The selection `counts[counts > 0]`: the token columns kept after zero-signal
elimination; a `NaN` sum fails the `> 0` test just like a zero sum. -/
def tokenColumnsKept (rows : List TokenStageRow) (tokens : List String) : List String :=
  tokens.filter fun tok =>
    match columnSum rows tok with
    | some n => decide (0 < n)
    | none => false

/-- The token indicator table after column selection
(`data_510k.loc[:, counts]` with `counts = ['KNUMBER'] + kept`): one row per
analytical record, keyed by `KNUMBER`, holding the kept indicator columns. -/
def tokenTable (rows : List TokenStageRow) (tokens : List String) :
    List (String × List (Option Nat)) :=
  rows.map fun r => (r.KNUMBER, (tokenColumnsKept rows tokens).map (tokenIndicatorOfRow r))

/-- One row of `features_dummy.csv` before the token merge: the `KNUMBER`
key plus the one-hot values. -/
structure DummyRow where
  KNUMBER : String
  values : List Nat
  deriving DecidableEq, Repr

/-- The call `pd.merge(features_dummy, data_510k, on="KNUMBER")`: an inner join —
each left row is paired with every right row sharing its key, and left rows
without a counterpart disappear. -/
def innerMergeOnKNUMBER (left : List DummyRow)
    (right : List (String × List (Option Nat))) :
    List (String × List Nat × List (Option Nat)) :=
  left.foldr
    (fun l acc =>
      ((right.filter fun r => r.1 == l.KNUMBER).map fun r => (l.KNUMBER, l.values, r.2)) ++ acc)
    []

/-- Header of the rewritten `features_dummy.csv`: the existing columns
followed by the kept token columns (the shared `KNUMBER` key is not
duplicated by the merge). -/
def updatedFeatureColumns (featureCols : List String) (rows : List TokenStageRow)
    (tokens : List String) : List String :=
  featureCols ++ tokenColumnsKept rows tokens

/-- One row of the `KNUMBER`/`DECISIONYEAR` index built by
`prepare_held_out_data`; every `DECISIONDATE` in the written analytical
table parses, so the year is defined. -/
structure IndexRow where
  KNUMBER : String
  DECISIONYEAR : Int
  deriving DecidableEq, Repr

/-- The `DATASET` column: initialized to `"train"`, overridden to
`"validation"` where the decision year falls in the validation range, then
overridden to `"test"` where it falls in the test range (so the test
override is applied last and wins any overlap). -/
def assignDataset (valS valE testS testE year : Int) : String :=
  let d0 := "train"
  let d1 := if valS ≤ year ∧ year ≤ valE then "validation" else d0
  if testS ≤ year ∧ year ≤ testE then "test" else d1

/-- Keys written to `train_KNUMBER.csv`. -/
def trainKeys (valS valE testS testE : Int) (table : List IndexRow) : List String :=
  (table.filter fun r => assignDataset valS valE testS testE r.DECISIONYEAR == "train").map
    fun r => r.KNUMBER

/-- Keys written to `validation_KNUMBER.csv`. -/
def validationKeys (valS valE testS testE : Int) (table : List IndexRow) : List String :=
  (table.filter fun r => assignDataset valS valE testS testE r.DECISIONYEAR == "validation").map
    fun r => r.KNUMBER

/-- Keys written to `test_KNUMBER.csv`. -/
def testKeys (valS valE testS testE : Int) (table : List IndexRow) : List String :=
  (table.filter fun r => assignDataset valS valE testS testE r.DECISIONYEAR == "test").map
    fun r => r.KNUMBER

/-- Exactly one of three alternatives holds. -/
def ExactlyOne (a b c : Prop) : Prop :=
  (a ∧ ¬b ∧ ¬c) ∨ (¬a ∧ b ∧ ¬c) ∨ (¬a ∧ ¬b ∧ c)

/-- A configuration document with exactly the keys of `config.json`
recognized by the pipeline (note: no `raw_501k_filename` key). -/
def sampleConfig : List (String × String) :=
  [("most_recent_510k_data_path",
      "https://www.accessdata.fda.gov/premarket/ftparea/pmn96cur.zip"),
    ("raw_510k_filename", "pmn96cur.txt"),
    ("feature_store_dir", "../feature_store/"),
    ("validation_data_start_year", "2013"),
    ("validation_data_end_year", "2014"),
    ("test_data_start_year", "2015"),
    ("test_data_end_year", "2016")]

/-- A raw record that passes all four retention filters. -/
def sampleRaw1 : RawRecord :=
  ⟨"K100001", some ⟨2010, 1, 1⟩, some ⟨2010, 3, 15⟩, "IYE", "AN",
    "Traditional", "N", "SESE", some "Cardiac Stent System"⟩

/-- Five further retained records covering the remaining allow-listed
product codes and advisory-committee codes. -/
def sampleRaw2 : RawRecord :=
  ⟨"K100002", some ⟨2011, 2, 1⟩, some ⟨2011, 6, 1⟩, "IYN", "HE",
    "Traditional", "N", "SESE", some "Infusion Pump"⟩

def sampleRaw3 : RawRecord :=
  ⟨"K100003", some ⟨2012, 3, 1⟩, some ⟨2013, 1, 1⟩, "JJX", "IM",
    "Traditional", "N", "SESE", some "Surgical Mesh"⟩

def sampleRaw4 : RawRecord :=
  ⟨"K100004", some ⟨2013, 4, 1⟩, some ⟨2013, 5, 1⟩, "LYZ", "MI",
    "Traditional", "N", "SESE", some "Bone Screw"⟩

def sampleRaw5 : RawRecord :=
  ⟨"K100005", some ⟨2014, 5, 1⟩, some ⟨2014, 9, 1⟩, "NBW", "RA",
    "Traditional", "N", "SESE", some "Imaging Catheter"⟩

def sampleRaw6 : RawRecord :=
  ⟨"K100006", some ⟨2015, 6, 1⟩, some ⟨2015, 8, 1⟩, "IYE", "TX",
    "Traditional", "N", "SESE", none⟩

/-- A raw record set on which the pipeline succeeds: each of the eleven
allow-listed category values occurs at least once among the retained rows. -/
def sampleRawRecords : List RawRecord :=
  [sampleRaw1, sampleRaw2, sampleRaw3, sampleRaw4, sampleRaw5, sampleRaw6]

/-- C2: the `COMPLEXITY` field is a total, non-overlapping three-way
classification of the decision latency: `"L"` iff latency ≤ 90, `"M"` iff
90 < latency ≤ 265, `"H"` iff latency > 265 (and for undefined latency);
in particular 90 ↦ `"L"`, 91 ↦ `"M"`, 265 ↦ `"M"`, 266 ↦ `"H"`. -/
theorem C2_complexity_partition :
    (∀ l : Option Int,
        complexityOf l = "L" ∨ complexityOf l = "M" ∨ complexityOf l = "H")
    ∧ (∀ d : Int,
        (complexityOf (some d) = "L" ↔ d ≤ 90)
        ∧ (complexityOf (some d) = "M" ↔ (90 < d ∧ d ≤ 265))
        ∧ (complexityOf (some d) = "H" ↔ 265 < d))
    ∧ complexityOf none = "H"
    ∧ complexityOf (some 90) = "L" ∧ complexityOf (some 91) = "M"
    ∧ complexityOf (some 265) = "M" ∧ complexityOf (some 266) = "H" := by
  have hchar : ∀ d : Int,
      (complexityOf (some d) = "L" ↔ d ≤ 90)
      ∧ (complexityOf (some d) = "M" ↔ (90 < d ∧ d ≤ 265))
      ∧ (complexityOf (some d) = "H" ↔ 265 < d) := by
    intro d
    simp only [complexityOf]
    split_ifs <;>
      refine ⟨?_, ?_, ?_⟩ <;> simp <;> omega
  refine ⟨?_, hchar, rfl, by decide, by decide, by decide, by decide⟩
  intro l
  match l with
  | none => right; right; rfl
  | some d =>
    rcases hchar d with ⟨hL, hM, hH⟩
    by_cases h1 : d ≤ 90
    · exact Or.inl (hL.mpr h1)
    · by_cases h2 : d ≤ 265
      · exact Or.inr (Or.inl (hM.mpr ⟨by omega, h2⟩))
      · exact Or.inr (Or.inr (hH.mpr (by omega)))

/-- Inversion of the success branch: a successful run's analytical output is
exactly the filtered table of the parsed rows. -/
theorem success_analytical_eq (config : List (String × String))
    (dataDirListing : List String) (rows : List RawRecord)
    (analytical : List AnalyticalRecord) (features : FeaturesFile)
    (h : prepare_analytical_data config dataDirListing rows
        = .success analytical features) :
    analytical = analyticalTable rows := by
  unfold prepare_analytical_data at h
  split at h
  · split at h <;> cases h
  · split at h
    · cases h
    · split at h
      · split at h
        · cases h
        · cases h; rfl
      · split at h <;> cases h

/-- C1: every record of the analytical table written by a successful run of
`prepare_analytical_data` satisfies all four retention predicates:
`THIRDPARTY = "N"`, `TYPE = "Traditional"`, `DECISION = "SESE"`, and a
defined `DECISIONDATE` on or after 2007-10-01. -/
theorem C1_retention_filters (config : List (String × String))
    (dataDirListing : List String) (rows : List RawRecord)
    (analytical : List AnalyticalRecord) (features : FeaturesFile)
    (h : prepare_analytical_data config dataDirListing rows
        = .success analytical features)
    (a : AnalyticalRecord) (ha : a ∈ analytical) :
    a.THIRDPARTY = "N" ∧ a.TYPE = "Traditional" ∧ a.DECISION = "SESE"
      ∧ ∃ d : Date, a.DECISIONDATE = some d ∧ fy2007Start.dayNumber ≤ d.dayNumber := by
  obtain rfl := success_analytical_eq config dataDirListing rows analytical features h
  simp only [analyticalTable, List.mem_filter, beq_iff_eq] at ha
  obtain ⟨⟨⟨⟨-, hdate⟩, hthird⟩, htype⟩, hdec⟩ := ha
  refine ⟨hthird, htype, hdec, ?_⟩
  revert hdate
  match hd : a.DECISIONDATE with
  | none => intro hdate; cases hdate
  | some d => intro hdate; exact ⟨d, rfl, by simpa using hdate⟩

/-- Witness for C1 at a concrete successful run and a concrete retained
record. -/
theorem C1_retention_filters_witness :
    (deriveColumns sampleRaw1).THIRDPARTY = "N"
      ∧ (deriveColumns sampleRaw1).TYPE = "Traditional"
      ∧ (deriveColumns sampleRaw1).DECISION = "SESE"
      ∧ ∃ d : Date, (deriveColumns sampleRaw1).DECISIONDATE = some d
          ∧ fy2007Start.dayNumber ≤ d.dayNumber :=
  C1_retention_filters sampleConfig ["pmn96cur.txt"] sampleRawRecords
    (analyticalTable sampleRawRecords)
    ⟨selectedFeatureColumns, featuresTable (analyticalTable sampleRawRecords)⟩
    (by decide) (deriveColumns sampleRaw1) (by decide)

/-- C3 (defective error path): with the configuration keys the pipeline
documents, an empty raw-data directory — and likewise a first file that
differs from the configured `raw_510k_filename` — does not produce a
`MissingDataError` naming the expected file: both branches evaluate the
misspelled config key `raw_501k_filename` and abort with a `KeyError`
(and had that key existed, `distutils.log.error` would only log without
raising). -/
theorem C3_defective_error_path :
    prepare_analytical_data sampleConfig [] sampleRawRecords
        = PrepOutcome.keyError "raw_501k_filename"
    ∧ prepare_analytical_data sampleConfig ["wrong_file.txt"] sampleRawRecords
        = PrepOutcome.keyError "raw_501k_filename"
    ∧ prepare_analytical_data sampleConfig [] sampleRawRecords
        ≠ PrepOutcome.missingDataError "pmn96cur.txt"
    ∧ prepare_analytical_data sampleConfig ["wrong_file.txt"] sampleRawRecords
        ≠ PrepOutcome.missingDataError "pmn96cur.txt" := by
  decide

/-- Inversion of the success branch for the features output: a successful
run writes the selected-columns header and the selected features rows. -/
theorem success_features_eq (config : List (String × String))
    (dataDirListing : List String) (rows : List RawRecord)
    (analytical : List AnalyticalRecord) (features : FeaturesFile)
    (h : prepare_analytical_data config dataDirListing rows
        = .success analytical features) :
    features = ⟨selectedFeatureColumns, featuresTable (analyticalTable rows)⟩ := by
  unfold prepare_analytical_data at h
  split at h
  · split at h <;> cases h
  · split at h
    · cases h
    · split at h
      · split at h
        · cases h
        · cases h; rfl
      · split at h <;> cases h

/-- C4: on every raw input for which `prepare_analytical_data` succeeds, the
written dummy-features table has exactly the identifier column followed by
the eleven allow-listed one-hot columns, one key per retained record and
eleven values per row. -/
theorem C4_feature_table_columns (config : List (String × String))
    (dataDirListing : List String) (rows : List RawRecord)
    (analytical : List AnalyticalRecord) (features : FeaturesFile)
    (h : prepare_analytical_data config dataDirListing rows
        = .success analytical features) :
    features.header
        = ["KNUMBER", "PRODUCTCODE_IYE", "PRODUCTCODE_IYN", "PRODUCTCODE_JJX",
            "PRODUCTCODE_LYZ", "PRODUCTCODE_NBW", "CLASSADVISECOMM_AN",
            "CLASSADVISECOMM_HE", "CLASSADVISECOMM_IM", "CLASSADVISECOMM_MI",
            "CLASSADVISECOMM_RA", "CLASSADVISECOMM_TX"]
      ∧ features.rows.map Prod.fst = analytical.map (fun a => a.KNUMBER)
      ∧ ∀ row ∈ features.rows, row.2.length = 11 := by
  obtain rfl := success_analytical_eq config dataDirListing rows analytical features h
  obtain rfl := success_features_eq config dataDirListing rows
    (analyticalTable rows) features h
  refine ⟨rfl, ?_, ?_⟩
  · simp [featuresTable]
  · intro row hrow
    simp only [featuresTable, List.mem_map] at hrow
    obtain ⟨a, -, rfl⟩ := hrow
    simp [selectedFeatureColumns]

/-- Witness for C4 at a concrete successful run. -/
theorem C4_feature_table_columns_witness :
    (FeaturesFile.mk selectedFeatureColumns
          (featuresTable (analyticalTable sampleRawRecords))).header
      = ["KNUMBER", "PRODUCTCODE_IYE", "PRODUCTCODE_IYN", "PRODUCTCODE_JJX",
          "PRODUCTCODE_LYZ", "PRODUCTCODE_NBW", "CLASSADVISECOMM_AN",
          "CLASSADVISECOMM_HE", "CLASSADVISECOMM_IM", "CLASSADVISECOMM_MI",
          "CLASSADVISECOMM_RA", "CLASSADVISECOMM_TX"] :=
  (C4_feature_table_columns sampleConfig ["pmn96cur.txt"] sampleRawRecords
    (analyticalTable sampleRawRecords)
    ⟨selectedFeatureColumns, featuresTable (analyticalTable sampleRawRecords)⟩
    (by decide)).1

/-- The Boolean substring search agrees with list-infix containment. -/
theorem containsSub_iff (hay tok : List Nat) :
    containsSub hay tok = true ↔ tok <:+: hay := by
  induction hay with
  | nil =>
    simp [containsSub, List.isPrefixOf_iff_prefix]
  | cons h t ih =>
    simp [containsSub, List.isPrefixOf_iff_prefix, List.infix_cons_iff, ih]

/-- C5: for a record with a defined device name, a token's indicator is 1
exactly when the normalized device name contains the token as a plain
substring, and 0 otherwise.  The hypothesis restricts to word-character
tokens — the form normalized dictionary tokens take — for which the regex
search performed by pandas `str.contains` is plain substring search. -/
theorem C5_token_indicator (dev token : String)
    (htok : ∀ c ∈ strCodes token, isWordCode c = true) :
    (indicatorValue (some (normalizeCodes (strCodes dev))) token = some 1
        ↔ strCodes token <:+: normalizeCodes (strCodes dev))
    ∧ (indicatorValue (some (normalizeCodes (strCodes dev))) token = some 0
        ↔ ¬ strCodes token <:+: normalizeCodes (strCodes dev)) := by
  cases hb : containsSub (normalizeCodes (strCodes dev)) (strCodes token) with
  | false => simp [indicatorValue, hb, ← containsSub_iff]
  | true => simp [indicatorValue, hb, ← containsSub_iff]

/-- Witness for C5 on the spec's token-match scenario:
`DEVICENAME = "Cardiac Stent System"`, token `"stent"`, indicator 1. -/
theorem C5_token_indicator_witness :
    indicatorValue (some (normalizeCodes (strCodes "Cardiac Stent System"))) "stent"
      = some 1 :=
  ((C5_token_indicator "Cardiac Stent System" "stent" (by decide)).1).mpr
    ((containsSub_iff _ _).mp (by decide))

/-- One normalization step applied to an already-normalized code point is
the identity: a surviving code point is a word character that is neither
an uppercase letter nor a space. -/
theorem normalizeStep_fixed (c : Nat)
    (h : isWordCode (spaceToUnderscore (lowerCode c)) = true) :
    spaceToUnderscore (lowerCode (spaceToUnderscore (lowerCode c)))
      = spaceToUnderscore (lowerCode c) := by
  simp only [isWordCode, decide_eq_true_eq, lowerCode, spaceToUnderscore] at *
  split_ifs at * <;> omega

/-- Unfolding lemma for `normalizeCodes` on a cons cell. -/
theorem normalizeCodes_cons (c : Nat) (t : List Nat) :
    normalizeCodes (c :: t)
      = if isWordCode (spaceToUnderscore (lowerCode c))
        then spaceToUnderscore (lowerCode c) :: normalizeCodes t
        else normalizeCodes t := by
  simp [normalizeCodes, List.filter_cons]

/-- C9: the `DEVICENAME` normalization (lowercase, whitespace to
underscore, non-word characters stripped) is a pure function of its input
and is idempotent, both on code-point lists and on (the code points of)
strings. -/
theorem C9_normalize_idempotent :
    (∀ s : List Nat, normalizeCodes (normalizeCodes s) = normalizeCodes s)
    ∧ ∀ s : String,
        normalizeCodes (normalizeCodes (strCodes s)) = normalizeCodes (strCodes s) := by
  have main : ∀ s : List Nat, normalizeCodes (normalizeCodes s) = normalizeCodes s := by
    intro s
    induction s with
    | nil => rfl
    | cons c t ih =>
      rw [normalizeCodes_cons]
      split_ifs with h
      · rw [normalizeCodes_cons, normalizeStep_fixed c h, if_pos h, ih]
      · exact ih
  exact ⟨main, fun s => main (strCodes s)⟩

/-- C7: the merge of line 40 is an inner join on `KNUMBER`: an identifier
that does not occur in the token indicator table never occurs in the
rewritten dummy-feature table, so dummy rows without a counterpart are
dropped. -/
theorem C7_inner_join_drops (left : List DummyRow) (rows : List TokenStageRow)
    (tokens : List String) (k : String)
    (hk : k ∉ (tokenTable rows tokens).map Prod.fst) :
    k ∉ (innerMergeOnKNUMBER left (tokenTable rows tokens)).map Prod.fst := by
  induction left with
  | nil => simp [innerMergeOnKNUMBER]
  | cons l rest ih =>
    intro hmem
    simp only [innerMergeOnKNUMBER, List.foldr_cons, List.map_append,
      List.mem_append] at hmem
    rcases hmem with hmem | hmem
    · simp only [List.map_map, List.mem_map, Function.comp] at hmem
      obtain ⟨r, hr, hk1⟩ := hmem
      rw [List.mem_filter] at hr
      refine hk (List.mem_map.mpr ⟨r, hr.1, ?_⟩)
      rw [beq_iff_eq.mp hr.2]
      exact hk1
    · exact ih hmem

/-- The second row set of the C10 scenario: every device name defined. -/
def c10SurvRows : List TokenStageRow :=
  [⟨"K100001", some "Cardiac Stent System"⟩]

/-- Witness for C7: a dummy row keyed `"K999999"`, absent from the token
table, is absent from the merged table. -/
theorem C7_inner_join_drops_witness :
    "K999999" ∉ (innerMergeOnKNUMBER [⟨"K999999", [1, 0]⟩]
        (tokenTable c10SurvRows ["stent"])).map Prod.fst :=
  C7_inner_join_drops [⟨"K999999", [1, 0]⟩] c10SurvRows ["stent"] "K999999"
    (by decide)

/-- C8: a token whose indicator column sums to zero is not among the kept
token columns, and (provided it is not already a dummy column of the
existing table) does not appear as a column of the written output. -/
theorem C8_zero_sum_dropped (rows : List TokenStageRow) (tokens : List String)
    (tok : String) (hsum : columnSum rows tok = some 0)
    (featureCols : List String) (hfc : tok ∉ featureCols) :
    tok ∉ tokenColumnsKept rows tokens
      ∧ tok ∉ updatedFeatureColumns featureCols rows tokens := by
  have h1 : tok ∉ tokenColumnsKept rows tokens := by
    intro hmem
    rw [tokenColumnsKept, List.mem_filter, hsum] at hmem
    simp at hmem
  refine ⟨h1, fun hmem => ?_⟩
  rcases List.mem_append.mp hmem with h | h
  · exact hfc h
  · exact h1 h

/-- Witness for C8: the token `"xyz"` matches no device name of the run,
its column sum is zero, and it appears in no output column. -/
theorem C8_zero_sum_dropped_witness :
    "xyz" ∉ tokenColumnsKept c10SurvRows ["stent", "xyz"]
      ∧ "xyz" ∉ updatedFeatureColumns selectedFeatureColumns c10SurvRows
          ["stent", "xyz"] :=
  C8_zero_sum_dropped c10SurvRows ["stent", "xyz"] "xyz" (by decide)
    selectedFeatureColumns (by decide)

/-- The row set of the C10 scenario: one record with a missing
`DEVICENAME`, one whose device name contains the token `"stent"`. -/
def c10Rows : List TokenStageRow :=
  [⟨"K100006", none⟩, ⟨"K100001", some "Cardiac Stent System"⟩]

/-- C10 counterexample: a missing `DEVICENAME` does make every computed
indicator NaN, but the NaN poisons the column sum, the `> 0` retention test
fails, and the column is dropped before writing — here even a matching
token column disappears, so the written dummy-feature table gains no
indicator column at all, and in particular no value outside {0, 1}. -/
theorem C10_counterexample :
    tokenIndicatorOfRow ⟨"K100006", none⟩ "stent" = none
      ∧ columnSum c10Rows "stent" = none
      ∧ tokenColumnsKept c10Rows ["stent"] = []
      ∧ updatedFeatureColumns selectedFeatureColumns c10Rows ["stent"]
          = selectedFeatureColumns := by
  decide

/-- A token indicator cell is NaN, 0 or 1. -/
theorem tokenIndicatorOfRow_cases (r : TokenStageRow) (tok : String) :
    tokenIndicatorOfRow r tok = none ∨ tokenIndicatorOfRow r tok = some 0
      ∨ tokenIndicatorOfRow r tok = some 1 := by
  rcases r with ⟨k, _ | d⟩
  · exact Or.inl rfl
  · cases h : containsSub (normalizeCodes (strCodes d)) (strCodes tok) with
    | false => exact Or.inr (Or.inl (by simp [tokenIndicatorOfRow, indicatorValue, h]))
    | true => exact Or.inr (Or.inr (by simp [tokenIndicatorOfRow, indicatorValue, h]))

/-- A defined column sum forces every cell of the column to be defined,
hence 0 or 1. -/
theorem columnSum_defined (rows : List TokenStageRow) (tok : String) (n : Nat)
    (h : columnSum rows tok = some n) :
    ∀ r ∈ rows, tokenIndicatorOfRow r tok = some 0
      ∨ tokenIndicatorOfRow r tok = some 1 := by
  induction rows generalizing n with
  | nil => simp
  | cons r t ih =>
    intro r2 hr2
    rw [columnSum, List.foldr_cons] at h
    rcases hv : tokenIndicatorOfRow r tok with _ | v <;> rw [hv] at h
    · cases h
    · rcases ht : t.foldr
          (fun r acc => optAdd (tokenIndicatorOfRow r tok) acc) (some 0) with _ | m <;>
        rw [ht] at h
      · cases h
      · rcases List.mem_cons.mp hr2 with rfl | hmem
        · rcases tokenIndicatorOfRow_cases r2 tok with h0 | h0 | h0
          · rw [h0] at hv; cases hv
          · exact Or.inl h0
          · exact Or.inr h0
        · exact ih m ht r2 hmem

/-- C10 amended: for a record with missing `DEVICENAME` every computed
token indicator is NaN rather than 0; however, every token column kept by
the zero-signal filter has a defined column sum, so each of its cells —
and hence every indicator value reaching the written dummy-feature
table — is 0 or 1. -/
theorem C10_nan_indicators_dropped (rows : List TokenStageRow)
    (tokens : List String) (tok : String)
    (hkept : tok ∈ tokenColumnsKept rows tokens) :
    (∀ k t : String, tokenIndicatorOfRow ⟨k, none⟩ t = none)
      ∧ ∀ r ∈ rows, tokenIndicatorOfRow r tok = some 0
          ∨ tokenIndicatorOfRow r tok = some 1 := by
  refine ⟨fun k t => rfl, ?_⟩
  rw [tokenColumnsKept, List.mem_filter] at hkept
  obtain ⟨-, hsum⟩ := hkept
  rcases hs : columnSum rows tok with _ | n <;> rw [hs] at hsum
  · cases hsum
  · exact columnSum_defined rows tok n hs

/-- Witness for the amended C10 at a concrete kept column. -/
theorem C10_nan_indicators_dropped_witness :
    tokenIndicatorOfRow ⟨"K100001", some "Cardiac Stent System"⟩ "stent" = some 0
      ∨ tokenIndicatorOfRow ⟨"K100001", some "Cardiac Stent System"⟩ "stent"
          = some 1 :=
  (C10_nan_indicators_dropped c10SurvRows ["stent"] "stent" (by decide)).2
    ⟨"K100001", some "Cardiac Stent System"⟩ (by decide)

/-- Membership of a record's key in a filtered key file, under unique keys:
the key appears exactly when the record passes the filter. -/
theorem mem_filtered_keys (p : IndexRow → Bool) (table : List IndexRow)
    (hkeys : (table.map IndexRow.KNUMBER).Nodup) (r : IndexRow) (hr : r ∈ table) :
    (r.KNUMBER ∈ (table.filter p).map fun x => x.KNUMBER) ↔ p r = true := by
  constructor
  · intro hmem
    obtain ⟨r2, hr2, hkeq⟩ := List.mem_map.mp hmem
    rw [List.mem_filter] at hr2
    have heq : r2 = r := List.inj_on_of_nodup_map hkeys hr2.1 hr hkeq
    rw [← heq]
    exact hr2.2
  · intro hp
    exact List.mem_map.mpr ⟨r, List.mem_filter.mpr ⟨hr, hp⟩, rfl⟩

/-- Characterization of the `DATASET` assignment: `"test"` on the test
range, else `"validation"` on the validation range, else `"train"`. -/
theorem assignDataset_eq (valS valE testS testE y : Int) :
    (assignDataset valS valE testS testE y = "test" ↔ (testS ≤ y ∧ y ≤ testE))
    ∧ (assignDataset valS valE testS testE y = "validation"
        ↔ ((valS ≤ y ∧ y ≤ valE) ∧ ¬(testS ≤ y ∧ y ≤ testE)))
    ∧ (assignDataset valS valE testS testE y = "train"
        ↔ (¬(valS ≤ y ∧ y ≤ valE) ∧ ¬(testS ≤ y ∧ y ≤ testE))) := by
  have hne1 : ("validation" : String) ≠ "test" := by decide
  have hne2 : ("train" : String) ≠ "test" := by decide
  have hne3 : ("test" : String) ≠ "validation" := by decide
  have hne4 : ("train" : String) ≠ "validation" := by decide
  have hne5 : ("test" : String) ≠ "train" := by decide
  have hne6 : ("validation" : String) ≠ "train" := by decide
  simp only [assignDataset]
  split_ifs with h1 h2 <;>
    exact ⟨by simp_all, by simp_all, by simp_all⟩

/-- C6: under the data-model invariant that `KNUMBER` is a unique key of
the analytical table, `prepare_held_out_data` gives every record exactly
one partition label — `"test"` iff its decision year is in the inclusive
test range (the later-applied test override winning any overlap),
otherwise `"validation"` iff in the validation range, otherwise `"train"`
— and each record's `KNUMBER` appears in exactly one of the three written
key files. -/
theorem C6_partition (valS valE testS testE : Int) (table : List IndexRow)
    (hkeys : (table.map IndexRow.KNUMBER).Nodup) (r : IndexRow) (hr : r ∈ table) :
    (assignDataset valS valE testS testE r.DECISIONYEAR = "test"
        ↔ (testS ≤ r.DECISIONYEAR ∧ r.DECISIONYEAR ≤ testE))
    ∧ (assignDataset valS valE testS testE r.DECISIONYEAR = "validation"
        ↔ ((valS ≤ r.DECISIONYEAR ∧ r.DECISIONYEAR ≤ valE)
            ∧ ¬(testS ≤ r.DECISIONYEAR ∧ r.DECISIONYEAR ≤ testE)))
    ∧ (assignDataset valS valE testS testE r.DECISIONYEAR = "train"
        ↔ (¬(valS ≤ r.DECISIONYEAR ∧ r.DECISIONYEAR ≤ valE)
            ∧ ¬(testS ≤ r.DECISIONYEAR ∧ r.DECISIONYEAR ≤ testE)))
    ∧ ExactlyOne (r.KNUMBER ∈ trainKeys valS valE testS testE table)
        (r.KNUMBER ∈ validationKeys valS valE testS testE table)
        (r.KNUMBER ∈ testKeys valS valE testS testE table) := by
  have hS := assignDataset_eq valS valE testS testE r.DECISIONYEAR
  refine ⟨hS.1, hS.2.1, hS.2.2, ?_⟩
  have htr : (r.KNUMBER ∈ trainKeys valS valE testS testE table)
      ↔ (assignDataset valS valE testS testE r.DECISIONYEAR == "train") = true :=
    mem_filtered_keys _ table hkeys r hr
  have hva : (r.KNUMBER ∈ validationKeys valS valE testS testE table)
      ↔ (assignDataset valS valE testS testE r.DECISIONYEAR == "validation") = true :=
    mem_filtered_keys _ table hkeys r hr
  have hte : (r.KNUMBER ∈ testKeys valS valE testS testE table)
      ↔ (assignDataset valS valE testS testE r.DECISIONYEAR == "test") = true :=
    mem_filtered_keys _ table hkeys r hr
  rw [beq_iff_eq] at htr hva hte
  have htr2 := htr.trans hS.2.2
  have hva2 := hva.trans hS.2.1
  have hte2 := hte.trans hS.1
  by_cases h1 : testS ≤ r.DECISIONYEAR ∧ r.DECISIONYEAR ≤ testE <;>
    by_cases h2 : valS ≤ r.DECISIONYEAR ∧ r.DECISIONYEAR ≤ valE <;>
      simp [ExactlyOne, htr2, hva2, hte2, h1, h2]

/-- The index table of the C6 witness scenario. -/
def c6Table : List IndexRow :=
  [⟨"K100004", 2013⟩, ⟨"K100006", 2015⟩, ⟨"K100001", 2010⟩]

/-- Witness for C6: with validation range [2013, 2014] and test range
[2015, 2016], the key of the record decided in 2015 lands in exactly one
key file. -/
theorem C6_partition_witness :
    ExactlyOne ("K100006" ∈ trainKeys 2013 2014 2015 2016 c6Table)
      ("K100006" ∈ validationKeys 2013 2014 2015 2016 c6Table)
      ("K100006" ∈ testKeys 2013 2014 2015 2016 c6Table) :=
  (C6_partition 2013 2014 2015 2016 c6Table (by decide) ⟨"K100006", 2015⟩
    (by decide)).2.2.2
